import Mathlib

/-!
Verification of the dexcli command-line interface (src/dexcli/cli.py).

The program is a thin CLI over an external exchange-connector capability
(ccxt).  We embed it shallowly:

* the externally-supplied records (Order, Position, Market) become
  structures over `String`, `ℚ` (Python floats carry decimal quantities;
  no claim depends on binary floating-point rounding) and `Option` for
  nullable fields;
* the ccxt exchange object becomes an explicit record of functions
  (`Exchange`), each returning `Except String α` — the error string is
  `str(e)` of whatever exception the capability raised;
* every `DEXCLIClient` method becomes a Lean function of the `Exchange`;
  methods that may submit orders additionally return the list of
  `create_order` requests they issued, so "the capability was (not)
  called" is observable;
* every click command becomes a function returning a `CmdResult`
  (exit code, stdout lines, stderr lines, create_order call trace).

Output-formatting externals (`json.dumps`, `tabulate`, strftime,
Python `:.Nf` fixed-point formatting of binary floats) are modelled by
concrete string functions below; no claim inspects their digit-level
output, only which records are rendered.
-/

namespace Dexcli

/-- An Order record as returned by the exchange capability
(ccxt unified order structure, the fields cli.py reads). -/
structure Order where
  id : String
  symbol : String
  otype : String
  side : String
  amount : ℚ
  filled : ℚ
  price : Option ℚ
  status : String
  timestamp : Int
deriving Repr, DecidableEq

/-- A Position record as returned by the exchange capability
(the fields cli.py reads; ccxt populates several only optionally). -/
structure Position where
  symbol : String
  side : String
  contracts : ℚ
  averagePrice : Option ℚ
  markPrice : Option ℚ
  unrealizedPnl : Option ℚ
  percentage : Option ℚ
  initialMargin : Option ℚ
deriving Repr, DecidableEq

/-- A Market record as returned by the exchange capability
(the fields cli.py reads; all but `symbol` are accessed with `.get`). -/
structure Market where
  symbol : String
  mtype : Option String
  base : Option String
  quote : Option String
  active : Option Bool
  limitsAmountMin : Option ℚ
  limitsCostMin : Option ℚ
deriving Repr, DecidableEq

/-- A request passed to the capability's `create_order`
(cli.py lines 61-67 and 122-128): symbol, type, side, amount,
optional price, and the optional `reduceOnly` entry of `params`. -/
structure OrderReq where
  symbol : String
  otype : String
  side : String
  amount : ℚ
  price : Option ℚ
  reduceOnly : Option Bool
deriving Repr, DecidableEq

/-- The external exchange-connector capability (the ccxt exchange
object), as the record of the methods cli.py invokes.  Each method
either returns a value or fails with the message of the raised
exception.  `fetch_positions_for` is `fetch_positions([symbol])`
(cli.py line 113); `fetch_positions` is the zero-argument call
(line 104).  `name`, `version`, `enableRateLimit` and `has` are the
metadata the `info` command reads. -/
structure Exchange where
  create_order : OrderReq → Except String Order
  cancel_order : String → String → Except String Order
  fetch_order : String → String → Except String Order
  fetch_open_orders : Option String → Except String (List Order)
  fetch_closed_orders : Option String → Except String (List Order)
  fetch_orders : Option String → Except String (List Order)
  fetch_positions : Except String (List Position)
  fetch_positions_for : String → Except String (List Position)
  fetch_markets : Except String (List Market)
  name : String
  version : String
  enableRateLimit : Bool
  has : String → Bool

namespace DEXCLIClient

/-- `DEXCLIClient.create_order` (cli.py lines 54-70).  The `ValueError`
raised for a limit order without price — the spec's `InvalidInput` —
and any capability failure are both caught by the method's `except`
clause and re-raised as `RuntimeError("Failed to create order: " + str(e))`;
we keep the resulting message.  The second component is the list of
requests submitted to the capability's `create_order`. -/
def create_order (ex : Exchange) (symbol side order_type : String)
    (amount : ℚ) (price : Option ℚ) : Except String Order × List OrderReq :=
  if order_type == "limit" && price.isNone then
    (Except.error ("Failed to create order: " ++ "Price is required for limit orders"), [])
  else
    let req : OrderReq := ⟨symbol, order_type, side, amount, price, none⟩
    match ex.create_order req with
    | Except.ok o => (Except.ok o, [req])
    | Except.error e => (Except.error ("Failed to create order: " ++ e), [req])

/-- `DEXCLIClient.cancel_order` (cli.py lines 72-78). -/
def cancel_order (ex : Exchange) (order_id symbol : String) : Except String Order :=
  match ex.cancel_order order_id symbol with
  | Except.ok r => Except.ok r
  | Except.error e => Except.error ("Failed to cancel order: " ++ e)

/-- `DEXCLIClient.get_order_status` (cli.py lines 80-86). -/
def get_order_status (ex : Exchange) (order_id symbol : String) : Except String Order :=
  match ex.fetch_order order_id symbol with
  | Except.ok o => Except.ok o
  | Except.error e => Except.error ("Failed to fetch order status: " ++ e)

/-- `DEXCLIClient.list_orders` (cli.py lines 88-99): the fetch variant
is selected by `status` — `open` and `closed` explicitly, anything
else (in particular `all`) falls to `fetch_orders`. -/
def list_orders (ex : Exchange) (symbol : Option String) (status : String) :
    Except String (List Order) :=
  let r :=
    if status == "open" then ex.fetch_open_orders symbol
    else if status == "closed" then ex.fetch_closed_orders symbol
    else ex.fetch_orders symbol
  match r with
  | Except.ok os => Except.ok os
  | Except.error e => Except.error ("Failed to fetch orders: " ++ e)

/-- `DEXCLIClient.get_positions` (cli.py lines 101-107). -/
def get_positions (ex : Exchange) : Except String (List Position) :=
  match ex.fetch_positions with
  | Except.ok ps => Except.ok ps
  | Except.error e => Except.error ("Failed to fetch positions: " ++ e)

/-- `DEXCLIClient.close_position` (cli.py lines 109-131): fetches the
positions for `symbol`; raises `ValueError("No open position found for …")`
only when that list is empty (the `contracts` field of a returned record
is not examined for zero); otherwise submits one market order built from
the FIRST returned record — side `sell` iff that record's side equals
`long`, amount its absolute contract count, `params={'reduceOnly': reduce_only}`
with `reduce_only` defaulting to `True`.  Every exception is re-raised as
`RuntimeError("Failed to close position: " + str(e))`. -/
def close_position (ex : Exchange) (symbol : String) (reduce_only : Bool := true) :
    Except String Order × List OrderReq :=
  match ex.fetch_positions_for symbol with
  | Except.error e => (Except.error ("Failed to close position: " ++ e), [])
  | Except.ok [] =>
      (Except.error ("Failed to close position: " ++
        ("No open position found for " ++ symbol)), [])
  | Except.ok (p :: _) =>
      let contracts : ℚ := |p.contracts|
      let side := if p.side == "long" then "sell" else "buy"
      let req : OrderReq := ⟨symbol, "market", side, contracts, none, some reduce_only⟩
      match ex.create_order req with
      | Except.ok o => (Except.ok o, [req])
      | Except.error e => (Except.error ("Failed to close position: " ++ e), [req])

/-- `DEXCLIClient.get_open_orders` (cli.py lines 133-139). -/
def get_open_orders (ex : Exchange) (symbol : String) : Except String (List Order) :=
  match ex.fetch_open_orders (some symbol) with
  | Except.ok os => Except.ok os
  | Except.error e => Except.error ("Failed to fetch open orders: " ++ e)

/-- `DEXCLIClient.list_markets` (cli.py lines 141-147). -/
def list_markets (ex : Exchange) : Except String (List Market) :=
  match ex.fetch_markets with
  | Except.ok ms => Except.ok ms
  | Except.error e => Except.error ("Failed to fetch markets: " ++ e)

end DEXCLIClient

/-! ### Output-formatting externals

Models of the external renderers cli.py uses (`tabulate`, `json.dumps`,
Python f-string formatting, `strftime`).  They are concrete string
functions so everything below is executable, but no claim depends on
their digit-level output — only on which records they are applied to. -/

/-- Left-pad a digit string with zeros to width `n`. -/
def padZeros (s : String) (n : Nat) : String :=
  String.mk (List.replicate (n - s.length) '0') ++ s

/-- Models Python `f"{x:.decf}"` fixed-point rendering of a float.
(Exact binary-float round-half-even is not reproduced; no claim
inspects the digits.) -/
def fmtFixed (dec : Nat) (q : ℚ) : String :=
  let n : Int := Rat.floor (q * (10 : ℚ) ^ dec + 1 / 2)
  let sign := if n < 0 then "-" else ""
  let m := n.natAbs
  if dec == 0 then sign ++ toString m
  else sign ++ toString (m / 10 ^ dec) ++ "." ++ padZeros (toString (m % 10 ^ dec)) dec

/-- Models `f"{d.get(key, 'N/A')}"` for an optional numeric field. -/
def optCell (x : Option ℚ) : String :=
  match x with
  | some q => toString q
  | none => "N/A"

/-- Python truthiness of `order.get('price')` (cli.py line 206):
false for a missing price and for price 0. -/
def pyTruthy (x : Option ℚ) : Bool :=
  match x with
  | some q => decide (q ≠ 0)
  | none => false

/-- Python truthiness of an optional string option (`if type:`, `if quote:`). -/
def pyTruthyStr (x : Option String) : Bool :=
  match x with
  | some s => !s.isEmpty
  | none => false

/-- Models `str(True)` / `str(False)`. -/
def pyBool (b : Bool) : String := if b then "True" else "False"

/-- Models the local-time `strftime('%Y-%m-%d %H:%M:%S')` of
`datetime.fromtimestamp(ts/1000)`; the real string depends on the
process timezone, which no claim inspects. -/
def fmtTimestamp (ms : Int) : String := "localtime " ++ toString ms

/-- Models the `tabulate(rows, headers, tablefmt='grid')` external. -/
def tabulate (headers : List String) (rows : List (List String)) : String :=
  String.intercalate "\n"
    ((String.intercalate " | " headers) :: rows.map (String.intercalate " | "))

/-- Models `json.dumps` of an optional number, `null` when absent. -/
def optQJson (x : Option ℚ) : String :=
  match x with
  | some q => toString q
  | none => "null"

/-- Models `json.dumps` of a string. -/
def strJson (s : String) : String := "\"" ++ s ++ "\""

/-- Models `json.dumps(order, indent=2)` for one Order record. -/
def Order.json (o : Order) : String :=
  "\x7b\"id\": " ++ strJson o.id ++ ", \"symbol\": " ++ strJson o.symbol ++
  ", \"type\": " ++ strJson o.otype ++ ", \"side\": " ++ strJson o.side ++
  ", \"amount\": " ++ toString o.amount ++ ", \"filled\": " ++ toString o.filled ++
  ", \"price\": " ++ optQJson o.price ++ ", \"status\": " ++ strJson o.status ++
  ", \"timestamp\": " ++ toString o.timestamp ++ "\x7d"

/-- Models `json.dumps` of a list of Order records. -/
def ordersJson (os : List Order) : String :=
  "[" ++ String.intercalate ", " (os.map Order.json) ++ "]"

/-- Models `json.dumps` for one Position record. -/
def Position.json (p : Position) : String :=
  "\x7b\"symbol\": " ++ strJson p.symbol ++ ", \"side\": " ++ strJson p.side ++
  ", \"contracts\": " ++ toString p.contracts ++
  ", \"averagePrice\": " ++ optQJson p.averagePrice ++
  ", \"markPrice\": " ++ optQJson p.markPrice ++
  ", \"unrealizedPnl\": " ++ optQJson p.unrealizedPnl ++
  ", \"percentage\": " ++ optQJson p.percentage ++
  ", \"initialMargin\": " ++ optQJson p.initialMargin ++ "\x7d"

/-- Models `json.dumps` of a list of Position records. -/
def positionsJson (ps : List Position) : String :=
  "[" ++ String.intercalate ", " (ps.map Position.json) ++ "]"

/-- Models `json.dumps` of an optional string, `null` when absent. -/
def optStrJson (x : Option String) : String :=
  match x with
  | some s => strJson s
  | none => "null"

/-- Models `json.dumps` for one Market record. -/
def Market.json (m : Market) : String :=
  "\x7b\"symbol\": " ++ strJson m.symbol ++ ", \"type\": " ++ optStrJson m.mtype ++
  ", \"base\": " ++ optStrJson m.base ++ ", \"quote\": " ++ optStrJson m.quote ++
  ", \"active\": " ++ (match m.active with | some b => pyBool b | none => "null") ++
  ", \"minAmount\": " ++ optQJson m.limitsAmountMin ++
  ", \"minCost\": " ++ optQJson m.limitsCostMin ++ "\x7d"

/-- Models `json.dumps` of a list of Market records. -/
def marketsJson (ms : List Market) : String :=
  "[" ++ String.intercalate ", " (ms.map Market.json) ++ "]"

/-! ### The click command layer

Each `@cli.command()` becomes a function of the already-parsed option
values.  click's option layer (cli.py lines 157-162, 214-216, 252,
290-291, 327-328, 364-367) performs only TYPE conversion — `Choice`
membership for side/type/status/format, float conversion for
amount/price — and requiredness; it imposes no range constraint, so the
numeric arguments below range over all of `ℚ`.  A command returns its
process exit code, its stdout and stderr lines, and the trace of
`create_order` requests submitted to the capability. -/

/-- The observable outcome of one command invocation. -/
structure CmdResult where
  exitCode : Nat
  stdout : List String
  stderr : List String
  calls : List OrderReq
deriving Repr, DecidableEq

/-- The `create` command (cli.py lines 157-175). -/
def create (ex : Exchange) (symbol side otype : String) (amount : ℚ)
    (price : Option ℚ) : CmdResult :=
  match DEXCLIClient.create_order ex symbol side otype amount price with
  | (Except.ok o, calls) =>
      ⟨0, ["Order created successfully!",
           "Order ID: " ++ o.id,
           "Status: " ++ o.status,
           Order.json o], [], calls⟩
  | (Except.error e, calls) => ⟨1, [], ["Error: " ++ e], calls⟩

/-- The `cancel` command (cli.py lines 177-190). -/
def cancel (ex : Exchange) (order_id symbol : String) : CmdResult :=
  match DEXCLIClient.cancel_order ex order_id symbol with
  | Except.ok r =>
      ⟨0, ["Order " ++ order_id ++ " cancelled successfully!", Order.json r], [], []⟩
  | Except.error e => ⟨1, [], ["Error: " ++ e], []⟩

/-- The `status` command (cli.py lines 192-211); the `Price:` line is
printed only when `order.get('price')` is truthy. -/
def status (ex : Exchange) (order_id symbol : String) : CmdResult :=
  match DEXCLIClient.get_order_status ex order_id symbol with
  | Except.ok o =>
      let base := ["Order Status: " ++ o.status,
                   "Type: " ++ o.otype,
                   "Side: " ++ o.side,
                   "Amount: " ++ toString o.amount,
                   "Filled: " ++ toString o.filled]
      let withPrice := if pyTruthy o.price then base ++ ["Price: " ++ optCell o.price] else base
      ⟨0, withPrice ++ ["Created: " ++ fmtTimestamp o.timestamp], [], []⟩
  | Except.error e => ⟨1, [], ["Error: " ++ e], []⟩

/-- One table row of the `orders` command (cli.py lines 234-245). -/
def ordersRow (o : Order) : List String :=
  [o.id.take 8 ++ "...", o.symbol, o.otype, o.side, fmtFixed 4 o.amount,
   fmtFixed 4 o.filled, optCell o.price, o.status, fmtTimestamp o.timestamp]

/-- Table headers of the `orders` command (cli.py line 232). -/
def ordersHeaders : List String :=
  ["ID", "Symbol", "Type", "Side", "Amount", "Filled", "Price", "Status", "Created"]

/-- The `orders` command (cli.py lines 213-249). -/
def orders (ex : Exchange) (symbol : Option String) (ostatus format : String) : CmdResult :=
  match DEXCLIClient.list_orders ex symbol ostatus with
  | Except.error e => ⟨1, [], ["Error: " ++ e], []⟩
  | Except.ok os =>
      if os.isEmpty then ⟨0, ["No orders found."], [], []⟩
      else if format == "json" then ⟨0, [ordersJson os], [], []⟩
      else ⟨0, [tabulate ordersHeaders (os.map ordersRow)], [], []⟩

/-- The open-position filter of the `positions` command
(cli.py line 261): keep exactly the records with nonzero contracts. -/
def openPositions (ps : List Position) : List Position :=
  ps.filter fun p => decide (p.contracts ≠ 0)

/-- One table row of the `positions` command (cli.py lines 273-283). -/
def posRow (p : Position) : List String :=
  [p.symbol, p.side, fmtFixed 4 p.contracts, optCell p.averagePrice,
   optCell p.markPrice, fmtFixed 2 (p.unrealizedPnl.getD 0),
   fmtFixed 2 (p.percentage.getD 0) ++ "%", fmtFixed 2 (p.initialMargin.getD 0)]

/-- Table headers of the `positions` command (cli.py line 271). -/
def posHeaders : List String :=
  ["Symbol", "Side", "Contracts", "Avg Price", "Mark Price", "PnL", "PnL %", "Margin"]

/-- The `positions` command (cli.py lines 251-287). -/
def positions (ex : Exchange) (format : String) : CmdResult :=
  match DEXCLIClient.get_positions ex with
  | Except.error e => ⟨1, [], ["Error: " ++ e], []⟩
  | Except.ok ps =>
      let open_positions := openPositions ps
      if open_positions.isEmpty then ⟨0, ["No open positions found."], [], []⟩
      else if format == "json" then ⟨0, [positionsJson open_positions], [], []⟩
      else ⟨0, [tabulate posHeaders (open_positions.map posRow)], [], []⟩

/-- The predicate of the `close` command's position lookup
(cli.py line 299): same symbol and nonzero contracts. -/
def openFor (symbol : String) (p : Position) : Bool :=
  p.symbol == symbol && decide (p.contracts ≠ 0)

/-- The position-details echo of the `close` command (cli.py lines 306-310). -/
def positionDetail (p : Position) : List String :=
  ["Position to close:",
   "Symbol: " ++ p.symbol,
   "Side: " ++ p.side,
   "Contracts: " ++ toString p.contracts,
   "Unrealized PnL: " ++ fmtFixed 2 (p.unrealizedPnl.getD 0)]

/-- The `close` command (cli.py lines 289-324).  `confirm` is the
`--confirm` flag; `promptAnswer` is the user's reply to
`click.confirm` (consulted only when the flag is absent). -/
def close (ex : Exchange) (symbol : String) (confirm promptAnswer : Bool) : CmdResult :=
  match DEXCLIClient.get_positions ex with
  | Except.error e => ⟨1, [], ["Error: " ++ e], []⟩
  | Except.ok ps =>
      match ps.find? (openFor symbol) with
      | none => ⟨0, ["No open position found for " ++ symbol], [], []⟩
      | some p =>
          let detail := positionDetail p
          if !confirm && !promptAnswer then
            ⟨0, detail ++ ["Cancelled."], [], []⟩
          else
            match DEXCLIClient.close_position ex symbol with
            | (Except.ok o, calls) =>
                ⟨0, detail ++ ["Position closed successfully!",
                               "Order ID: " ++ o.id,
                               "Status: " ++ o.status], [], calls⟩
            | (Except.error e, calls) => ⟨1, detail, ["Error: " ++ e], calls⟩

/-- One table row of the `get-open-orders` command (cli.py lines 346-356):
the id is truncated only when longer than 12 characters. -/
def openOrdersRow (o : Order) : List String :=
  [if o.id.length > 12 then o.id.take 12 ++ "..." else o.id, o.otype, o.side,
   fmtFixed 4 o.amount, fmtFixed 4 o.filled, optCell o.price, o.status,
   fmtTimestamp o.timestamp]

/-- Table headers of the `get-open-orders` command (cli.py line 344). -/
def openOrdersHeaders : List String :=
  ["ID", "Type", "Side", "Amount", "Filled", "Price", "Status", "Created"]

/-- The `get-open-orders` command (cli.py lines 326-361). -/
def get_open_orders (ex : Exchange) (symbol format : String) : CmdResult :=
  match DEXCLIClient.get_open_orders ex symbol with
  | Except.error e => ⟨1, [], ["Error: " ++ e], []⟩
  | Except.ok os =>
      if os.isEmpty then ⟨0, ["No open orders found for " ++ symbol], [], []⟩
      else if format == "json" then ⟨0, [ordersJson os], [], []⟩
      else ⟨0, [tabulate openOrdersHeaders (os.map openOrdersRow),
                "\nTotal open orders: " ++ toString os.length], [], []⟩

/-- The filter chain of the `markets` command (cli.py lines 376-381):
active flag keeps records whose `active` defaults to true; the type and
quote options filter by exact `.get` equality when (Python-)truthy. -/
def marketsFiltered (active : Bool) (mtype quote : Option String)
    (ms : List Market) : List Market :=
  let ms1 := if active then ms.filter (fun m => m.active.getD true) else ms
  let ms2 := if pyTruthyStr mtype then ms1.filter (fun m => m.mtype == mtype) else ms1
  if pyTruthyStr quote then ms2.filter (fun m => m.quote == quote) else ms2

/-- One table row of the `markets` command (cli.py lines 394-402). -/
def marketRow (m : Market) : List String :=
  [m.symbol, m.mtype.getD "N/A", m.base.getD "N/A", m.quote.getD "N/A",
   if m.active.getD true then "✓" else "✗",
   optCell m.limitsAmountMin, optCell m.limitsCostMin]

/-- Table headers of the `markets` command (cli.py line 391). -/
def marketHeaders : List String :=
  ["Symbol", "Type", "Base", "Quote", "Active", "Min Amount", "Min Cost"]

/-- The `markets` command (cli.py lines 363-408): table mode renders only
the first 50 filtered records and notes the remainder; json mode renders
them all. -/
def markets (ex : Exchange) (active : Bool) (mtype quote : Option String)
    (format : String) : CmdResult :=
  match DEXCLIClient.list_markets ex with
  | Except.error e => ⟨1, [], ["Error: " ++ e], []⟩
  | Except.ok ms =>
      let filtered := marketsFiltered active mtype quote ms
      if filtered.isEmpty then ⟨0, ["No markets found matching the criteria."], [], []⟩
      else if format == "json" then ⟨0, [marketsJson filtered], [], []⟩
      else
        let tab := tabulate marketHeaders ((filtered.take 50).map marketRow)
        if filtered.length > 50 then
          ⟨0, [tab, "\n... and " ++ toString (filtered.length - 50) ++ " more markets"],
           [], []⟩
        else ⟨0, [tab], [], []⟩

/-- The feature list of the `info` command (cli.py lines 427-440). -/
def infoFeatures : List (String × String) :=
  [("Fetch Ticker", "fetchTicker"), ("Fetch Tickers", "fetchTickers"),
   ("Fetch Order Book", "fetchOrderBook"), ("Fetch Trades", "fetchTrades"),
   ("Fetch OHLCV", "fetchOHLCV"), ("Create Order", "createOrder"),
   ("Cancel Order", "cancelOrder"), ("Fetch Orders", "fetchOrders"),
   ("Fetch Open Orders", "fetchOpenOrders"), ("Fetch Closed Orders", "fetchClosedOrders"),
   ("Fetch Positions", "fetchPositions"), ("Fetch Balance", "fetchBalance")]

/-- The `info` command (cli.py lines 411-449); pure metadata rendering. -/
def info (ex : Exchange) : CmdResult :=
  ⟨0, ["Exchange: " ++ ex.name,
       "Version: " ++ ex.version,
       "Rate Limit: " ++ (if ex.enableRateLimit then "Enabled" else "Disabled"),
       "Has CORS: " ++ pyBool (ex.has "CORS"),
       "Has Public API: " ++ pyBool (ex.has "publicAPI"),
       "Has Private API: " ++ pyBool (ex.has "privateAPI"),
       "\nAvailable Features:"] ++
      infoFeatures.map (fun nk => "  " ++ (if ex.has nk.2 then "✓" else "✗") ++ " " ++ nk.1),
   [], []⟩

/-! ### Concrete mock capability

A small mock exchange used to instantiate the theorems below on
concrete inputs (the spec's own test scenarios use such a mock). -/

/-- A fixed order the mock returns. -/
def mockOrder : Order :=
  ⟨"abc123def456", "ETH/USDT", "market", "sell", 3/2, 0, none, "closed", 1700000000000⟩

/-- An open long position of 1.5 contracts on ETH/USDT. -/
def mockLong : Position :=
  ⟨"ETH/USDT", "long", 3/2, some 2000, some 2100, some 150, some 5, some 300⟩

/-- A flat (contracts = 0) position record on BTC/USDT. -/
def mockFlat : Position :=
  ⟨"BTC/USDT", "long", 0, none, none, some 0, none, none⟩

/-- An active swap market record. -/
def mockMarket1 : Market :=
  ⟨"ETH/USDT:USDT", some "swap", some "ETH", some "USDT", some true, some (1/100), some 10⟩

/-- An inactive swap market record. -/
def mockMarket2 : Market :=
  ⟨"BTC/USDT:USDT", some "swap", some "BTC", some "USDT", some false, none, none⟩

/-- The mock capability: echoes create requests back as an order,
reports one open long and one flat position, and two markets. -/
def mockEx : Exchange where
  create_order := fun req =>
    Except.ok { mockOrder with
      symbol := req.symbol, otype := req.otype, side := req.side,
      amount := req.amount, price := req.price }
  cancel_order := fun _ _ => Except.ok mockOrder
  fetch_order := fun _ _ => Except.ok mockOrder
  fetch_open_orders := fun _ => Except.ok [mockOrder]
  fetch_closed_orders := fun _ => Except.ok []
  fetch_orders := fun _ => Except.ok [mockOrder]
  fetch_positions := Except.ok [mockLong, mockFlat]
  fetch_positions_for := fun _ => Except.ok [mockLong]
  fetch_markets := Except.ok [mockMarket1, mockMarket2]
  name := "Hyperliquid"
  version := "v1"
  enableRateLimit := true
  has := fun _ => true

/-- A position record with contract size 0 — closed in the spec's
data-model sense. -/
def zeroPos : Position := ⟨"ETH/USDT", "long", 0, none, none, some 0, none, none⟩

/-- A capability whose position fetch for any symbol returns only the
size-0 record `zeroPos`. -/
def exC3 : Exchange :=
  { mockEx with fetch_positions_for := fun _ => Except.ok [zeroPos] }

/-- The order the mock capability returns for the size-0 closing
request `⟨"ETH/USDT", "market", "sell", 0, none, some true⟩`. -/
def closedZeroOrder : Order :=
  ⟨"abc123def456", "ETH/USDT", "market", "sell", 0, 0, none, "closed", 1700000000000⟩

/-! ### Specification predicates -/

/-- What C1 asserts of `close_position` once the capability has returned
a first position record `p`: exactly one request is submitted to the
capability's `create_order`; it is a market order for the requested
symbol, with the inverse side of `p`, the absolute contract size of `p`,
and `reduceOnly` set to the caller's flag; the method returns the
capability's resulting order (suitably wrapped on failure); and the
flag defaults to `true`. -/
def ClosingOrderSpec (ex : Exchange) (symbol : String) (p : Position) (ro : Bool) : Prop :=
  ∃ req : OrderReq,
    (DEXCLIClient.close_position ex symbol ro).2 = [req] ∧
    req.symbol = symbol ∧
    req.otype = "market" ∧
    req.side = (if p.side = "long" then "sell" else "buy") ∧
    req.amount = |p.contracts| ∧
    req.price = none ∧
    req.reduceOnly = some ro ∧
    (DEXCLIClient.close_position ex symbol ro).1 =
      (match ex.create_order req with
       | Except.ok o => Except.ok o
       | Except.error e => Except.error ("Failed to close position: " ++ e)) ∧
    DEXCLIClient.close_position ex symbol = DEXCLIClient.close_position ex symbol true

/-- What C4 asserts of the `positions` command against a fetched list
`ps`: the rendered records are exactly the members of `ps` with nonzero
contract size, in json and in table format alike. -/
def PositionsViewSpec (ex : Exchange) (ps : List Position) : Prop :=
  (∀ p, p ∈ openPositions ps ↔ p ∈ ps ∧ p.contracts ≠ 0) ∧
  positions ex "json" =
    (if (openPositions ps).isEmpty then ⟨0, ["No open positions found."], [], []⟩
     else ⟨0, [positionsJson (openPositions ps)], [], []⟩) ∧
  positions ex "table" =
    (if (openPositions ps).isEmpty then ⟨0, ["No open positions found."], [], []⟩
     else ⟨0, [tabulate posHeaders ((openPositions ps).map posRow)], [], []⟩)

/-- What C6 asserts of the `close` command when no open position exists:
the informational message, no order submitted, exit code 0. -/
def NoOpenPositionMessage (ex : Exchange) (symbol : String) (confirm ans : Bool) : Prop :=
  close ex symbol confirm ans = ⟨0, ["No open position found for " ++ symbol], [], []⟩

/-- What C9 asserts of the `markets` command against a fetched list
`ms`: table mode renders at most the first 50 filtered records and
notes the remainder count when more than 50 remain; json mode renders
the whole filtered list. -/
def MarketsViewSpec (ex : Exchange) (active : Bool) (mt q : Option String)
    (ms : List Market) : Prop :=
  let fs := marketsFiltered active mt q ms
  (markets ex active mt q "table").stdout =
    (if fs.isEmpty then ["No markets found matching the criteria."]
     else if fs.length > 50 then
       [tabulate marketHeaders ((fs.take 50).map marketRow),
        "\n... and " ++ toString (fs.length - 50) ++ " more markets"]
     else [tabulate marketHeaders ((fs.take 50).map marketRow)]) ∧
  ((fs.take 50).map marketRow).length ≤ 50 ∧
  (markets ex active mt q "json").stdout =
    (if fs.isEmpty then ["No markets found matching the criteria."] else [marketsJson fs])

/-- What C10 asserts of the `close` command when the user declines the
prompt: the details and `Cancelled.` are echoed, no order is submitted,
exit code 0. -/
def CancelledNoOrder (ex : Exchange) (symbol : String) (p : Position) : Prop :=
  close ex symbol false false = ⟨0, positionDetail p ++ ["Cancelled."], [], []⟩

/-! ### Theorems for the claims -/

/-- C1: whenever the capability returns a (first) position record `p`
for the requested symbol, `close_position` submits exactly one market
order whose side is sell when `p` is long and buy when `p` is short,
whose amount is the absolute contract size of `p`, whose `reduceOnly`
parameter is the caller's flag (defaulting to true), and returns the
capability's resulting order. -/
theorem close_position_submits_inverse_market_order
    (ex : Exchange) (symbol : String) (p : Position) (rest : List Position) (ro : Bool)
    (hfetch : ex.fetch_positions_for symbol = Except.ok (p :: rest)) :
    ClosingOrderSpec ex symbol p ro := by
  refine ⟨⟨symbol, "market", if p.side == "long" then "sell" else "buy",
           |p.contracts|, none, some ro⟩, ?_⟩
  unfold DEXCLIClient.close_position
  rw [hfetch]
  simp only [beq_iff_eq]
  cases hc : ex.create_order ⟨symbol, "market",
      if p.side = "long" then "sell" else "buy", |p.contracts|, none, some ro⟩ <;>
    simp [hc]

/-- Witness for C1: the mock capability holds a long position of 1.5
contracts on ETH/USDT, and the closing request is a reduce-only sell
market order of 1.5. -/
theorem close_position_submits_inverse_market_order_witness :
    mockEx.fetch_positions_for "ETH/USDT" = Except.ok [mockLong] ∧
    ClosingOrderSpec mockEx "ETH/USDT" mockLong true :=
  ⟨rfl, close_position_submits_inverse_market_order mockEx "ETH/USDT" mockLong [] true rfl⟩

/-- C2: a limit-order create request without a price fails with the
`InvalidInput` validation error of cli.py line 59 (`ValueError("Price is
required for limit orders")`, surfaced as the wrapped message
`Failed to create order: Price is required for limit orders`), the
capability's `create_order` is never called, and the `create` command
prints the `Error:` line and exits with code 1. -/
theorem create_limit_without_price_rejected
    (ex : Exchange) (symbol side : String) (amount : ℚ) :
    DEXCLIClient.create_order ex symbol side "limit" amount none =
      (Except.error ("Failed to create order: " ++ "Price is required for limit orders"),
       []) ∧
    create ex symbol side "limit" amount none =
      ⟨1, [],
       ["Error: " ++ ("Failed to create order: " ++ "Price is required for limit orders")],
       []⟩ := by
  constructor <;> rfl

/-- Counterexample for C3: the capability returns a single position
record with contract size 0 — "closed", hence "no open position", in
the claim's sense — yet `close_position` does not fail with NotFound:
it submits a (reduce-only, size-0) market order to the capability and
returns the resulting order. -/
theorem close_position_zero_size_not_notfound :
    exC3.fetch_positions_for "ETH/USDT" = Except.ok [zeroPos] ∧
    zeroPos.contracts = 0 ∧
    (DEXCLIClient.close_position exC3 "ETH/USDT").2 =
      [⟨"ETH/USDT", "market", "sell", 0, none, some true⟩] ∧
    (DEXCLIClient.close_position exC3 "ETH/USDT").1 = Except.ok closedZeroOrder := by
  refine ⟨rfl, rfl, ?_, ?_⟩ <;> rfl

/-- C3 (amended): `close_position(symbol)` fails with the NotFound error
exactly when the capability returns an EMPTY position list for the
symbol, and then no order is submitted; when the list is nonempty a
closing order is submitted even if the record's contract size is 0
(`close_position` never inspects `contracts` for zero); a capability
fetch failure is wrapped and no order is submitted either. -/
theorem close_position_notfound_iff_empty_fetch
    (ex : Exchange) (symbol : String) (ro : Bool) :
    match ex.fetch_positions_for symbol with
    | Except.ok [] =>
        DEXCLIClient.close_position ex symbol ro =
          (Except.error ("Failed to close position: " ++
            ("No open position found for " ++ symbol)), [])
    | Except.ok (_ :: _) => (DEXCLIClient.close_position ex symbol ro).2 ≠ []
    | Except.error e =>
        DEXCLIClient.close_position ex symbol ro =
          (Except.error ("Failed to close position: " ++ e), []) := by
  cases hf : ex.fetch_positions_for symbol with
  | error e => simp [DEXCLIClient.close_position, hf]
  | ok ps =>
    cases ps with
    | nil => simp [DEXCLIClient.close_position, hf]
    | cons p rest =>
      simp only
      unfold DEXCLIClient.close_position
      rw [hf]
      simp only [beq_iff_eq]
      cases hc : ex.create_order ⟨symbol, "market",
          if p.side = "long" then "sell" else "buy", |p.contracts|, none, some ro⟩ <;>
        simp [hc]

/-- C8: `list_orders` selects the capability fetch by status — `open`
uses the open-orders fetch, `closed` the closed-orders fetch, `all` the
all-orders fetch — and returns the fetched sequence unchanged. -/
theorem list_orders_selects_by_status (ex : Exchange) (symbol : Option String) :
    (match ex.fetch_open_orders symbol with
     | Except.ok os => DEXCLIClient.list_orders ex symbol "open" = Except.ok os
     | Except.error e =>
         DEXCLIClient.list_orders ex symbol "open" =
           Except.error ("Failed to fetch orders: " ++ e)) ∧
    (match ex.fetch_closed_orders symbol with
     | Except.ok os => DEXCLIClient.list_orders ex symbol "closed" = Except.ok os
     | Except.error e =>
         DEXCLIClient.list_orders ex symbol "closed" =
           Except.error ("Failed to fetch orders: " ++ e)) ∧
    (match ex.fetch_orders symbol with
     | Except.ok os => DEXCLIClient.list_orders ex symbol "all" = Except.ok os
     | Except.error e =>
         DEXCLIClient.list_orders ex symbol "all" =
           Except.error ("Failed to fetch orders: " ++ e)) := by
  refine ⟨?_, ?_, ?_⟩
  · cases h : ex.fetch_open_orders symbol <;> simp [DEXCLIClient.list_orders, h]
  · cases h : ex.fetch_closed_orders symbol <;> simp [DEXCLIClient.list_orders, h]
  · cases h : ex.fetch_orders symbol <;> simp [DEXCLIClient.list_orders, h]

/-- C4: for every fetched position list, the `positions` command renders
exactly the records with nonzero contract size — zero-size records are
excluded, all others included — in both table and json formats. -/
theorem positions_view_filters_zero (ex : Exchange) (ps : List Position)
    (hfetch : ex.fetch_positions = Except.ok ps) :
    PositionsViewSpec ex ps := by
  refine ⟨?_, ?_, ?_⟩
  · intro p
    simp [openPositions, List.mem_filter]
  · unfold positions DEXCLIClient.get_positions
    rw [hfetch]
    by_cases he : (openPositions ps).isEmpty <;> simp [he]
  · unfold positions DEXCLIClient.get_positions
    rw [hfetch]
    by_cases he : (openPositions ps).isEmpty <;> simp [he]

/-- Witness for C4: the mock list holds one nonzero and one zero-size
record; the view shows exactly the nonzero one. -/
theorem positions_view_filters_zero_witness :
    mockEx.fetch_positions = Except.ok [mockLong, mockFlat] ∧
    PositionsViewSpec mockEx [mockLong, mockFlat] :=
  ⟨rfl, positions_view_filters_zero mockEx [mockLong, mockFlat] rfl⟩

/-- Counterexample for C5: `-1` is a decimal that is not positive, the
option layer converts it without any range check, and the dispatcher
still invokes the ExchangeClient operation — the capability receives a
create request of amount `-1` and the command exits 0. -/
theorem create_negative_amount_not_rejected :
    (create mockEx "BTC/USDT" "buy" "market" (-1) none).calls =
      [⟨"BTC/USDT", "market", "buy", -1, none, none⟩] ∧
    ¬(0 : ℚ) < -1 ∧
    (create mockEx "BTC/USDT" "buy" "market" (-1) none).exitCode = 0 :=
  ⟨rfl, by norm_num, rfl⟩

/-- C5 (amended): the create path only type-checks `amount` and `price`
(click converts them as floats; `side` and `type` are `Choice` sets);
there is no positivity or range check, so every parsed value — positive
or not — is forwarded unchanged to the ExchangeClient operation and on
to the capability, except when the limit-without-price guard fires. -/
theorem create_forwards_amount_unchecked
    (ex : Exchange) (symbol side otype : String) (amount : ℚ) (price : Option ℚ)
    (hguard : ¬(otype = "limit" ∧ price = none)) :
    (DEXCLIClient.create_order ex symbol side otype amount price).2 =
      [⟨symbol, otype, side, amount, price, none⟩] ∧
    (create ex symbol side otype amount price).calls =
      [⟨symbol, otype, side, amount, price, none⟩] := by
  have hcond : (otype == "limit" && price.isNone) = false := by
    cases price <;> simp_all [beq_iff_eq]
  have hco : (DEXCLIClient.create_order ex symbol side otype amount price).2 =
      [⟨symbol, otype, side, amount, price, none⟩] := by
    unfold DEXCLIClient.create_order
    rw [hcond]
    cases hc : ex.create_order ⟨symbol, otype, side, amount, price, none⟩ <;> simp [hc]
  refine ⟨hco, ?_⟩
  unfold create
  cases hc : DEXCLIClient.create_order ex symbol side otype amount price with
  | mk r cs =>
    cases r <;> simp_all

/-- Witness for C5 (amended): a market order of amount `-1` passes the
guard and reaches the capability unchanged. -/
theorem create_forwards_amount_unchecked_witness :
    ¬("market" = "limit" ∧ (none : Option ℚ) = none) ∧
    ((DEXCLIClient.create_order mockEx "BTC/USDT" "buy" "market" (-1) none).2 =
       [⟨"BTC/USDT", "market", "buy", -1, none, none⟩] ∧
     (create mockEx "BTC/USDT" "buy" "market" (-1) none).calls =
       [⟨"BTC/USDT", "market", "buy", -1, none, none⟩]) := by
  have hguard : ¬("market" = "limit" ∧ (none : Option ℚ) = none) := by simp
  exact ⟨hguard,
    create_forwards_amount_unchecked mockEx "BTC/USDT" "buy" "market" (-1) none hguard⟩

/-- C6: when every fetched record for the symbol is flat (contract size
0) — in particular when none matches at all — the `close` command
prints the informational message, submits no order, and exits 0. -/
theorem close_no_open_position_informational
    (ex : Exchange) (symbol : String) (confirm ans : Bool) (ps : List Position)
    (hfetch : ex.fetch_positions = Except.ok ps)
    (hnone : ∀ p ∈ ps, p.symbol = symbol → p.contracts = 0) :
    NoOpenPositionMessage ex symbol confirm ans := by
  have hfind : ps.find? (openFor symbol) = none := by
    rw [List.find?_eq_none]
    intro p hp
    simp only [openFor, Bool.and_eq_true, beq_iff_eq, decide_eq_true_eq, not_and]
    intro hsym
    simpa using hnone p hp hsym
  unfold NoOpenPositionMessage close DEXCLIClient.get_positions
  rw [hfetch]
  dsimp only
  rw [hfind]

/-- Witness for C6: the mock's only BTC/USDT record has contract size 0,
so `close BTC/USDT` reports no open position and exits 0. -/
theorem close_no_open_position_informational_witness :
    mockEx.fetch_positions = Except.ok [mockLong, mockFlat] ∧
    (∀ p ∈ [mockLong, mockFlat], p.symbol = "BTC/USDT" → p.contracts = 0) ∧
    NoOpenPositionMessage mockEx "BTC/USDT" true false := by
  have hnone : ∀ p ∈ [mockLong, mockFlat], p.symbol = "BTC/USDT" → p.contracts = 0 := by
    simp [mockLong, mockFlat]
  exact ⟨rfl, hnone,
    close_no_open_position_informational mockEx "BTC/USDT" true false _ rfl hnone⟩

/-- C9: for every fetched market list and filter combination, table mode
renders at most the first 50 filtered records, with a remainder notice
naming the count of further markets when more than 50 remain; json mode
renders the whole filtered list. -/
theorem markets_table_caps_fifty (ex : Exchange) (act : Bool)
    (mt q : Option String) (ms : List Market)
    (hfetch : ex.fetch_markets = Except.ok ms) :
    MarketsViewSpec ex act mt q ms := by
  refine ⟨?_, ?_, ?_⟩
  · unfold markets DEXCLIClient.list_markets
    rw [hfetch]
    by_cases he : (marketsFiltered act mt q ms).isEmpty
    · simp [he]
    · by_cases hl : (marketsFiltered act mt q ms).length > 50 <;> simp [he, hl]
  · rw [List.length_map, List.length_take]
    exact Nat.min_le_left _ _
  · unfold markets DEXCLIClient.list_markets
    rw [hfetch]
    by_cases he : (marketsFiltered act mt q ms).isEmpty <;> simp [he]

/-- Witness for C9: the mock capability reports two markets. -/
theorem markets_table_caps_fifty_witness :
    mockEx.fetch_markets = Except.ok [mockMarket1, mockMarket2] ∧
    MarketsViewSpec mockEx false none none [mockMarket1, mockMarket2] :=
  ⟨rfl, markets_table_caps_fifty mockEx false none none [mockMarket1, mockMarket2] rfl⟩

/-- C10: on an existing open position, running `close` without the
confirm flag and declining the prompt echoes the details and
`Cancelled.`, submits no order, and exits 0. -/
theorem close_decline_prompt_no_order
    (ex : Exchange) (symbol : String) (ps : List Position) (p : Position)
    (hfetch : ex.fetch_positions = Except.ok ps)
    (hfind : ps.find? (openFor symbol) = some p) :
    CancelledNoOrder ex symbol p := by
  unfold CancelledNoOrder close DEXCLIClient.get_positions
  rw [hfetch]
  dsimp only
  rw [hfind]
  rfl

/-- Witness for C10: the mock holds an open long on ETH/USDT; declining
the prompt cancels without submitting anything. -/
theorem close_decline_prompt_no_order_witness :
    mockEx.fetch_positions = Except.ok [mockLong, mockFlat] ∧
    [mockLong, mockFlat].find? (openFor "ETH/USDT") = some mockLong ∧
    CancelledNoOrder mockEx "ETH/USDT" mockLong := by
  have hfind : [mockLong, mockFlat].find? (openFor "ETH/USDT") = some mockLong := by
    simp [mockLong, mockFlat, openFor]
  exact ⟨rfl, hfind,
    close_decline_prompt_no_order mockEx "ETH/USDT" _ mockLong rfl hfind⟩

/-- C7: every command reports through the single top-level boundary.
For each of the nine commands: when its invoked operation fails with
message `e`, the command's whole outcome is exactly exit code 1 and the
single line `Error: e` on the error stream (so the printed message is
the operation's message, nothing is retried, and nothing is locally
recovered — for `create` and the `close` submission the call trace is
the operation's own trace, unextended); and when the operation
succeeds, the command exits with code 0 and prints nothing to the
error stream.  `close` has two operations (the position fetch, then
the submission); `info` only renders capability metadata and always
succeeds. -/
theorem commands_uniform_error_boundary
    (ex : Exchange) (oid sym side otype fmt ostatus : String)
    (symOpt mt q : Option String) (amount : ℚ) (price : Option ℚ)
    (cf ans act : Bool) :
    (match (DEXCLIClient.create_order ex sym side otype amount price).1 with
     | Except.error e =>
         create ex sym side otype amount price =
           ⟨1, [], ["Error: " ++ e],
            (DEXCLIClient.create_order ex sym side otype amount price).2⟩
     | Except.ok _ =>
         (create ex sym side otype amount price).exitCode = 0 ∧
         (create ex sym side otype amount price).stderr = []) ∧
    (match DEXCLIClient.cancel_order ex oid sym with
     | Except.error e => cancel ex oid sym = ⟨1, [], ["Error: " ++ e], []⟩
     | Except.ok _ =>
         (cancel ex oid sym).exitCode = 0 ∧ (cancel ex oid sym).stderr = []) ∧
    (match DEXCLIClient.get_order_status ex oid sym with
     | Except.error e => status ex oid sym = ⟨1, [], ["Error: " ++ e], []⟩
     | Except.ok _ =>
         (status ex oid sym).exitCode = 0 ∧ (status ex oid sym).stderr = []) ∧
    (match DEXCLIClient.list_orders ex symOpt ostatus with
     | Except.error e => orders ex symOpt ostatus fmt = ⟨1, [], ["Error: " ++ e], []⟩
     | Except.ok _ =>
         (orders ex symOpt ostatus fmt).exitCode = 0 ∧
         (orders ex symOpt ostatus fmt).stderr = []) ∧
    (match DEXCLIClient.get_positions ex with
     | Except.error e => positions ex fmt = ⟨1, [], ["Error: " ++ e], []⟩
     | Except.ok _ =>
         (positions ex fmt).exitCode = 0 ∧ (positions ex fmt).stderr = []) ∧
    (match DEXCLIClient.get_positions ex with
     | Except.error e => close ex sym cf ans = ⟨1, [], ["Error: " ++ e], []⟩
     | Except.ok ps =>
       match ps.find? (openFor sym) with
       | none => close ex sym cf ans = ⟨0, ["No open position found for " ++ sym], [], []⟩
       | some p =>
         if (!cf && !ans) = true then
           close ex sym cf ans = ⟨0, positionDetail p ++ ["Cancelled."], [], []⟩
         else
           match (DEXCLIClient.close_position ex sym).1 with
           | Except.error e =>
               close ex sym cf ans =
                 ⟨1, positionDetail p, ["Error: " ++ e],
                  (DEXCLIClient.close_position ex sym).2⟩
           | Except.ok _ =>
               (close ex sym cf ans).exitCode = 0 ∧
               (close ex sym cf ans).stderr = []) ∧
    (match DEXCLIClient.get_open_orders ex sym with
     | Except.error e => get_open_orders ex sym fmt = ⟨1, [], ["Error: " ++ e], []⟩
     | Except.ok _ =>
         (get_open_orders ex sym fmt).exitCode = 0 ∧
         (get_open_orders ex sym fmt).stderr = []) ∧
    (match DEXCLIClient.list_markets ex with
     | Except.error e => markets ex act mt q fmt = ⟨1, [], ["Error: " ++ e], []⟩
     | Except.ok _ =>
         (markets ex act mt q fmt).exitCode = 0 ∧
         (markets ex act mt q fmt).stderr = []) ∧
    ((info ex).exitCode = 0 ∧ (info ex).stderr = []) := by
  refine ⟨?_, ?_, ?_, ?_, ?_, ?_, ?_, ?_, ?_⟩
  · cases hc : DEXCLIClient.create_order ex sym side otype amount price with
    | mk r cs =>
      cases r with
      | ok o =>
        simp only [hc]
        have heq : create ex sym side otype amount price =
            ⟨0, ["Order created successfully!", "Order ID: " ++ o.id,
                 "Status: " ++ o.status, Order.json o], [], cs⟩ := by
          unfold create; rw [hc]
        rw [heq]
        exact ⟨rfl, rfl⟩
      | error e =>
        simp only [hc]
        unfold create; rw [hc]
  · cases hc : DEXCLIClient.cancel_order ex oid sym with
    | ok r =>
      simp only [hc]
      have heq : cancel ex oid sym =
          ⟨0, ["Order " ++ oid ++ " cancelled successfully!", Order.json r], [], []⟩ := by
        unfold cancel; rw [hc]
      rw [heq]
      exact ⟨rfl, rfl⟩
    | error e =>
      simp only [hc]
      unfold cancel; rw [hc]
  · cases hc : DEXCLIClient.get_order_status ex oid sym with
    | ok o =>
      simp only [hc]
      refine ⟨?_, ?_⟩ <;> unfold status <;> rw [hc]
    | error e =>
      simp only [hc]
      unfold status; rw [hc]
  · cases hc : DEXCLIClient.list_orders ex symOpt ostatus with
    | ok os =>
      simp only [hc]
      refine ⟨?_, ?_⟩ <;> unfold orders <;> rw [hc] <;>
        by_cases h1 : os.isEmpty <;> by_cases h2 : (fmt == "json") = true <;> simp [h1, h2]
    | error e =>
      simp only [hc]
      unfold orders; rw [hc]
  · cases hc : DEXCLIClient.get_positions ex with
    | ok ps =>
      simp only [hc]
      refine ⟨?_, ?_⟩ <;> unfold positions <;> rw [hc] <;>
        by_cases h1 : (openPositions ps).isEmpty <;>
        by_cases h2 : (fmt == "json") = true <;> simp [h1, h2]
    | error e =>
      simp only [hc]
      unfold positions; rw [hc]
  · cases hg : DEXCLIClient.get_positions ex with
    | error e =>
      simp only [hg]
      unfold close; rw [hg]
    | ok ps =>
      simp only [hg]
      cases hf : ps.find? (openFor sym) with
      | none =>
        simp only [hf]
        unfold close; rw [hg]; dsimp only; rw [hf]
      | some p =>
        simp only [hf]
        by_cases hb : (!cf && !ans) = true
        · rw [if_pos hb]
          unfold close; rw [hg]; dsimp only; rw [hf]; simp [hb]
        · rw [if_neg hb]
          cases hcp : DEXCLIClient.close_position ex sym with
          | mk r cs =>
            cases r with
            | ok o =>
              simp only [hcp]
              have heq : close ex sym cf ans =
                  ⟨0, positionDetail p ++ ["Position closed successfully!",
                       "Order ID: " ++ o.id, "Status: " ++ o.status], [], cs⟩ := by
                unfold close; rw [hg]; dsimp only; rw [hf]
                simp only [Bool.not_eq_true] at hb
                simp [hb, hcp]
              rw [heq]
              exact ⟨rfl, rfl⟩
            | error e =>
              simp only [hcp]
              unfold close; rw [hg]; dsimp only; rw [hf]
              simp only [Bool.not_eq_true] at hb
              simp [hb, hcp]
  · cases hc : DEXCLIClient.get_open_orders ex sym with
    | ok os =>
      simp only [hc]
      refine ⟨?_, ?_⟩ <;> unfold get_open_orders <;> rw [hc] <;>
        by_cases h1 : os.isEmpty <;> by_cases h2 : (fmt == "json") = true <;> simp [h1, h2]
    | error e =>
      simp only [hc]
      unfold get_open_orders; rw [hc]
  · cases hc : DEXCLIClient.list_markets ex with
    | ok ms =>
      simp only [hc]
      refine ⟨?_, ?_⟩ <;> unfold markets <;> rw [hc] <;>
        by_cases h1 : (marketsFiltered act mt q ms).isEmpty <;>
        by_cases h2 : (fmt == "json") = true <;>
        by_cases h3 : (marketsFiltered act mt q ms).length > 50 <;> simp [h1, h2, h3]
    | error e =>
      simp only [hc]
      unfold markets; rw [hc]
  · exact ⟨rfl, rfl⟩

end Dexcli
